import Mathlib

/-!
# The templ command line: dispatch, flag parsing and subcommand handlers

A shallow embedding of cmd/templ/main.go.  The program is I/O code, so the
embedding is by explicit effect passing: every function returns the ordered
list of observable events it performs together with the way it ends (a normal
return, or termination of the process through os.Exit).

The writer handed to run is a parameter, so that a writer which is the
standard output of the process (as in main) can be told from one that is not.

The collaborators that live outside main.go (templ.Version, runtime.NumCPU,
strconv.ParseInt and the four Run functions) are fields of an environment.
The flag package of the standard library is embedded for the three flag kinds
main.go registers (string, bool, int).
-/

set_option autoImplicit false

namespace Templ

/-! ## Data model -/

/-- The record generatecmd.Arguments, with the fields named in the struct
literal of generateCmd. -/
structure GenerateArguments where
  FileName : String
  Path : String
  Watch : Bool
  Command : String
  Proxy : String
  ProxyPort : Int
  WorkerCount : Int
  GenerateSourceMapVisualisations : Bool
  IncludeVersion : Bool
  IncludeTimestamp : Bool
  PPROFPort : Int
  deriving DecidableEq, Repr

/-- The record migratecmd.Arguments, with the fields named in migrateCmd. -/
structure MigrateArguments where
  FileName : String
  Path : String
  deriving DecidableEq, Repr

/-- The record lspcmd.Arguments, with the fields named in lspCmd. -/
structure LspArguments where
  Log : String
  GoplsLog : String
  GoplsRPCTrace : Bool
  PPROF : Bool
  HTTPDebug : String
  deriving DecidableEq, Repr

/-- The collaborators of main.go.  A Run function is represented by the error
it returns: none for a nil error, some msg for an error whose Error() text is
msg.  What Run does before it returns (its own output, a session that stays
open) is outside main.go and is not represented. -/
structure Env where
  Version : String
  NumCPU : Int
  ParseInt : String → Option Int
  generateRun : GenerateArguments → Option String
  migrateRun : MigrateArguments → Option String
  fmtRun : List String → Option String
  lspRun : LspArguments → Option String

/-- The value held by a flag: the three kinds registered in main.go. -/
inductive FlagValue where
  | str (s : String)
  | bool (b : Bool)
  | int (n : Int)
  deriving DecidableEq, Repr

/-- The dynamic type of a flag value. -/
inductive FlagKind where
  | str
  | bool
  | int
  deriving DecidableEq, Repr

/-- The dynamic type of the value held by a flag. -/
def FlagValue.kind : FlagValue → FlagKind
  | .str _ => .str
  | .bool _ => .bool
  | .int _ => .int

/-- A registered flag: flag.Flag with its current value and its default. -/
structure Flag where
  name : String
  usage : String
  value : FlagValue
  defValue : FlagValue
  deriving DecidableEq, Repr

/-- The errors produced by FlagSet.parseOne, one constructor per failf call
site, and ErrHelp. -/
inductive FlagError where
  | badFlag (s : String)
  | notDefined (name : String)
  | help
  | invalidBool (value name : String)
  | needsArgument (name : String)
  | invalidValue (value name : String)
  deriving DecidableEq, Repr

/-- The four subcommand handlers of main.go. -/
inductive Handler where
  | generateCmd
  | migrateCmd
  | fmtCmd
  | lspCmd
  deriving DecidableEq, Repr

/-- An io.Writer, as far as the place its bytes go to is concerned: the
standard output of the process, its standard error, or any other writer. -/
inductive Writer where
  | stdout
  | stderr
  | other (id : Nat)
  deriving DecidableEq, Repr

/-- Observable events, in program order.
* write: one Write of the text on the given writer, made by fmt.Fprint or
  fmt.Fprintln;
* stdout: text printed on os.Stdout by fmt.Println;
* flagMessage, usageHeader, printDefaults: output of the flag package on the
  output of the flag set, which is os.Stderr (the message of failf, the line
  "Usage of name:", and the listing made by PrintDefaults, flag after flag in
  the order printed, from the name, usage and default of each);
* enter: entry into a subcommand handler with the slice it received;
* generateRun, migrateRun, fmtRun, lspRun: a call of the Run function of the
  respective package with the given argument. -/
inductive Event where
  | write (w : Writer) (s : String)
  | stdout (s : String)
  | flagMessage (e : FlagError)
  | usageHeader (name : String)
  | printDefaults (flags : List (String × String × FlagValue))
  | enter (h : Handler) (args : List String)
  | generateRun (a : GenerateArguments)
  | migrateRun (a : MigrateArguments)
  | fmtRun (args : List String)
  | lspRun (a : LspArguments)
  deriving DecidableEq, Repr

/-- How a function ends: it returns a value, the process is terminated by
os.Exit with the given code, or it panics. -/
inductive Outcome (α : Type) where
  | returned (v : α)
  | exited (code : Int)
  | panicked
  deriving DecidableEq, Repr

/-- The effect of a function: its events and how it ends. -/
structure Effect (α : Type) where
  trace : List Event
  outcome : Outcome α
  deriving DecidableEq, Repr

/-- Is the event a call of one of the four Run functions? -/
def Event.isRun : Event → Bool
  | .generateRun _ => true
  | .migrateRun _ => true
  | .fmtRun _ => true
  | .lspRun _ => true
  | _ => false

/-- Is the event an entry into a subcommand handler? -/
def Event.isEnter : Event → Bool
  | .enter _ _ => true
  | _ => false

/-- Does the event put bytes on the writer w?  A Write does when it is made
on w, a print on os.Stdout when w is os.Stdout, and the output of the flag
package, made on os.Stderr, when w is os.Stderr. -/
def Event.reaches (w : Writer) : Event → Bool
  | .write v _ => decide (v = w)
  | .stdout _ => decide (w = Writer.stdout)
  | .flagMessage _ => decide (w = Writer.stderr)
  | .usageHeader _ => decide (w = Writer.stderr)
  | .printDefaults _ => decide (w = Writer.stderr)
  | _ => false

/-- Is the event a print on os.Stdout? -/
def Event.isStdout : Event → Bool
  | .stdout _ => true
  | _ => false

/-- Is the event output of the flag package? -/
def Event.isFlagOutput : Event → Bool
  | .flagMessage _ => true
  | .usageHeader _ => true
  | .printDefaults _ => true
  | _ => false

/-! ## The flag package -/

/-- The flag.ErrorHandling policies. -/
inductive ErrorHandling where
  | ContinueOnError
  | ExitOnError
  | PanicOnError
  deriving DecidableEq, Repr

/-- A flag.FlagSet: its name, error policy, the registered flags in
registration order, and the arguments not yet consumed. -/
structure FlagSet where
  name : String
  errorHandling : ErrorHandling
  formal : List Flag
  args : List String
  deriving DecidableEq, Repr

/-- The result of flag.NewFlagSet. -/
def NewFlagSet (name : String) (errorHandling : ErrorHandling) : FlagSet :=
  { name := name, errorHandling := errorHandling, formal := [], args := [] }

/-- Registration by FlagSet.String: a string flag holding its default. -/
def FlagSet.defString (f : FlagSet) (name value usage : String) : FlagSet :=
  { f with formal := f.formal ++ [{ name := name, usage := usage, value := .str value, defValue := .str value }] }

/-- Registration by FlagSet.Bool: a boolean flag holding its default. -/
def FlagSet.defBool (f : FlagSet) (name : String) (value : Bool) (usage : String) : FlagSet :=
  { f with formal := f.formal ++ [{ name := name, usage := usage, value := .bool value, defValue := .bool value }] }

/-- Registration by FlagSet.Int: an integer flag holding its default. -/
def FlagSet.defInt (f : FlagSet) (name : String) (value : Int) (usage : String) : FlagSet :=
  { f with formal := f.formal ++ [{ name := name, usage := usage, value := .int value, defValue := .int value }] }

/-- What registration fixes in a flag: its name, usage text and default, and
the dynamic type of its value. -/
def Flag.signature (fl : Flag) : String × String × FlagValue × FlagKind :=
  (fl.name, fl.usage, fl.defValue, fl.value.kind)

/-- The flag set g holds the registrations of f: same name and error policy,
and flag by flag the same signature. -/
def FlagSet.sameFlags (f g : FlagSet) : Prop :=
  g.name = f.name ∧ g.errorHandling = f.errorHandling ∧
    g.formal.map Flag.signature = f.formal.map Flag.signature

/-- The map access f.formal[name]. -/
def FlagSet.lookup (f : FlagSet) (name : String) : Option Flag :=
  f.formal.find? (fun fl => fl.name == name)

/-- The value the flag called name holds in the flag set. -/
def FlagSet.valueOf (f : FlagSet) (name : String) : Option FlagValue :=
  (f.lookup name).map Flag.value

/-- Dereference of the pointer returned by FlagSet.String for the flag name. -/
def FlagSet.getString (f : FlagSet) (name : String) : String :=
  match f.lookup name with
  | some { value := .str s, .. } => s
  | _ => ""

/-- Dereference of the pointer returned by FlagSet.Bool for the flag name. -/
def FlagSet.getBool (f : FlagSet) (name : String) : Bool :=
  match f.lookup name with
  | some { value := .bool b, .. } => b
  | _ => false

/-- Dereference of the pointer returned by FlagSet.Int for the flag name. -/
def FlagSet.getInt (f : FlagSet) (name : String) : Int :=
  match f.lookup name with
  | some { value := .int n, .. } => n
  | _ => 0

/-- The function strconv.ParseBool, used by the Set method of boolean flags. -/
def ParseBool (s : String) : Option Bool :=
  if s = "1" ∨ s = "t" ∨ s = "T" ∨ s = "TRUE" ∨ s = "true" ∨ s = "True" then some true
  else if s = "0" ∨ s = "f" ∨ s = "F" ∨ s = "FALSE" ∨ s = "false" ∨ s = "False" then some false
  else none

/-- The Set method of a flag value: the new value, or none when the text is
rejected.  Integer flags use strconv.ParseInt, taken from the environment. -/
def FlagValue.set (env : Env) (v : FlagValue) (text : String) : Option FlagValue :=
  match v with
  | .str _ => some (.str text)
  | .bool _ => (ParseBool text).map FlagValue.bool
  | .int _ => (env.ParseInt text).map FlagValue.int

/-- The assignment through the pointer f.formal[name].Value: the first flag
called name receives the value.  (A Go flag set holds one flag per name:
registering a name twice panics.) -/
def storeIn (name : String) (v : FlagValue) : List Flag → List Flag
  | [] => []
  | fl :: fls =>
    if fl.name = name then { fl with value := v } :: fls else fl :: storeIn name v fls

/-- Store a new value in the flag called name. -/
def FlagSet.store (f : FlagSet) (name : String) (v : FlagValue) : FlagSet :=
  { f with formal := storeIn name v f.formal }

/-- The order of Go strings on their characters: lexicographic, a proper
initial part first.  Go compares the bytes; on UTF-8 the order of the bytes is
the order of the code points. -/
def lessChars : List Char → List Char → Bool
  | [], [] => false
  | [], _ :: _ => true
  | _ :: _, [] => false
  | a :: as, b :: bs =>
    if a.toNat < b.toNat then true
    else if b.toNat < a.toNat then false
    else lessChars as bs

/-- The comparison a < b of two Go strings. -/
def stringLess (a b : String) : Bool :=
  lessChars a.toList b.toList

/-- Insertion of a flag into a list sorted by name. -/
def insertFlag (fl : Flag) : List Flag → List Flag
  | [] => [fl]
  | x :: xs => if stringLess fl.name x.name then fl :: x :: xs else x :: insertFlag fl xs

/-- The function sortFlags: the flags of the map in ascending order of their
names (the names of a flag set are distinct). -/
def sortFlags : List Flag → List Flag
  | [] => []
  | x :: xs => insertFlag x (sortFlags xs)

/-- The method FlagSet.PrintDefaults: it visits the registered flags in the
order of sortFlags (VisitAll) and prints for each a listing made from its
name, its usage text and its default. -/
def FlagSet.PrintDefaults (f : FlagSet) : Event :=
  Event.printDefaults ((sortFlags f.formal).map (fun fl => (fl.name, fl.usage, fl.defValue)))

/-- The default usage function: a header line and PrintDefaults. -/
def FlagSet.usage (f : FlagSet) : List Event :=
  [Event.usageHeader f.name, f.PrintDefaults]

/-- The output of failf: the error message, then the usage. -/
def FlagSet.failf (f : FlagSet) (e : FlagError) : List Event :=
  Event.flagMessage e :: f.usage

/-- The loop of parseOne that looks for an equals sign from index 1 on: the
name before it, whether a value is attached, and the value after it. -/
def cutValue (name : List Char) : List Char × Bool × List Char :=
  match name with
  | [] => ([], false, [])
  | c :: tail =>
    match tail.span (fun x => x != '=') with
    | (pre, []) => (c :: pre, false, [])
    | (pre, _ :: value) => (c :: pre, true, value)

/-- The result of one call of parseOne: the flag set afterwards, the output
produced, the flag seen, and the error. -/
structure ParseStep where
  flagSet : FlagSet
  trace : List Event
  seen : Bool
  err : Option FlagError
  deriving DecidableEq, Repr

/-- The second half of parseOne, from the lookup of the name on: f is the
flag set with the flag argument already removed from args.  A boolean flag
takes its value from the argument itself or is set to true; any other flag
takes the attached value or else the next argument. -/
def FlagSet.assign (env : Env) (f : FlagSet) (name : String) (hasValue : Bool) (value : String) :
    ParseStep :=
  match f.lookup name with
  | none =>
    if name = "help" ∨ name = "h" then ⟨f, f.usage, false, some .help⟩
    else ⟨f, f.failf (.notDefined name), false, some (.notDefined name)⟩
  | some fl =>
    match fl.value with
    | .bool _ =>
      match fl.value.set env (if hasValue then value else "true") with
      | none => ⟨f, f.failf (.invalidBool value name), false, some (.invalidBool value name)⟩
      | some v => ⟨f.store name v, [], true, none⟩
    | _ =>
      if hasValue then
        match fl.value.set env value with
        | none => ⟨f, f.failf (.invalidValue value name), false, some (.invalidValue value name)⟩
        | some v => ⟨f.store name v, [], true, none⟩
      else
        match f.args with
        | [] => ⟨f, f.failf (.needsArgument name), false, some (.needsArgument name)⟩
        | next :: rest =>
          match fl.value.set env next with
          | none =>
            ⟨{ f with args := rest }, FlagSet.failf { f with args := rest } (.invalidValue next name),
              false, some (.invalidValue next name)⟩
          | some v => ⟨FlagSet.store { f with args := rest } name v, [], true, none⟩

/-- The method FlagSet.parseOne.  Go indexes the bytes of the argument; the
tests made (a leading minus, a second minus, an equals sign) are on ASCII
bytes, so on valid UTF-8 they agree with the same tests on characters. -/
def FlagSet.parseOne (env : Env) (f : FlagSet) : ParseStep :=
  match f.args with
  | [] => ⟨f, [], false, none⟩
  | s :: rest =>
    if s.toList.length < 2 || s.toList.head? != some '-' then ⟨f, [], false, none⟩
    else
      let numMinuses := if s.toList.get? 1 = some '-' then 2 else 1
      if numMinuses = 2 && s.toList.length = 2 then ⟨{ f with args := rest }, [], false, none⟩
      else
        let name := s.toList.drop numMinuses
        if name.length = 0 || name.head? = some '-' || name.head? = some '=' then
          ⟨f, f.failf (.badFlag s), false, some (.badFlag s)⟩
        else
          FlagSet.assign env { f with args := rest } (String.mk (cutValue name).1)
            (cutValue name).2.1 (String.mk (cutValue name).2.2)

/-- How FlagSet.Parse ends: it returns (with the error under ContinueOnError),
terminates the process (ExitOnError), or panics (PanicOnError). -/
inductive ParseEnd where
  | returned (err : Option FlagError)
  | exited (code : Int)
  | panicked (err : FlagError)
  deriving DecidableEq, Repr

/-- The result of FlagSet.Parse. -/
structure Parsed where
  flagSet : FlagSet
  trace : List Event
  ending : ParseEnd
  deriving DecidableEq, Repr

/-- The loop of FlagSet.Parse, bounded by a number of iterations.  Every
iteration that continues has consumed an argument, so the bound
args.length + 1 used by FlagSet.Parse is never reached
(FlagSet.parseLoop_some). -/
def FlagSet.parseLoop (env : Env) : Nat → FlagSet → List Event → Option Parsed
  | 0, _, _ => none
  | fuel + 1, f, tr =>
    let step := f.parseOne env
    if step.seen then FlagSet.parseLoop env fuel step.flagSet (tr ++ step.trace)
    else
      match step.err with
      | none => some ⟨step.flagSet, tr ++ step.trace, .returned none⟩
      | some err =>
        match f.errorHandling with
        | .ContinueOnError => some ⟨step.flagSet, tr ++ step.trace, .returned (some err)⟩
        | .ExitOnError =>
          if err = .help then some ⟨step.flagSet, tr ++ step.trace, .exited 0⟩
          else some ⟨step.flagSet, tr ++ step.trace, .exited 2⟩
        | .PanicOnError => some ⟨step.flagSet, tr ++ step.trace, .panicked err⟩

/-- The method FlagSet.Parse: store the arguments and run the loop.  The
loop always ends within the bound, so getD never falls back on its second
argument (FlagSet.Parse_eq). -/
def FlagSet.Parse (env : Env) (f : FlagSet) (arguments : List String) : Parsed :=
  (FlagSet.parseLoop env (arguments.length + 1) { f with args := arguments } []).getD
    ⟨{ f with args := arguments }, [], .returned none⟩

/-! ## main.go -/

/-- The constant usageText. -/
def usageText : String :=
  "usage: templ <command> [parameters]\nTo see help text, you can run:\n  templ generate --help\n  templ fmt --help\n  templ lsp --help\n  templ migrate --help\n  templ version\nexamples:\n  templ generate\n"

/-- The flag set built at the top of generateCmd, in registration order. -/
def generateFlags (env : Env) : FlagSet :=
  (NewFlagSet "generate" .ExitOnError)
    |>.defString "f" "" "Optionally generates code for a single file, e.g. -f header.templ"
    |>.defString "path" "." "Generates code for all files in path."
    |>.defBool "sourceMapVisualisations" false "Set to true to generate HTML files to visualise the templ code and its corresponding Go code."
    |>.defBool "include-version" true "Set to false to skip inclusion of the templ version in the generated code."
    |>.defBool "include-timestamp" false "Set to true to include the current time in the generated code."
    |>.defBool "watch" false "Set to true to watch the path for changes and regenerate code."
    |>.defString "cmd" "" "Set the command to run after generating code."
    |>.defString "proxy" "" "Set the URL to proxy after generating code and executing the command."
    |>.defInt "proxyport" 7331 "The port the proxy will listen on."
    |>.defInt "w" env.NumCPU "Number of workers to run in parallel."
    |>.defInt "pprof" 0 "Port to start pprof web server on."
    |>.defBool "help" false "Print help and exit."

/-- The flag set built at the top of migrateCmd. -/
def migrateFlags : FlagSet :=
  (NewFlagSet "migrate" .ExitOnError)
    |>.defString "f" "" "Optionally migrate a single file, e.g. -f header.templ"
    |>.defString "path" "." "Migrates code for all files in path."
    |>.defBool "help" false "Print help and exit."

/-- The flag set built at the top of fmtCmd. -/
def fmtFlags : FlagSet :=
  (NewFlagSet "fmt" .ExitOnError)
    |>.defBool "help" false "Print help and exit."

/-- The flag set built at the top of lspCmd. -/
def lspFlags : FlagSet :=
  (NewFlagSet "lsp" .ExitOnError)
    |>.defString "log" "" "The file to log templ LSP output to, or leave empty to disable logging."
    |>.defString "goplsLog" "" "The file to log gopls output, or leave empty to disable logging."
    |>.defBool "goplsRPCTrace" false "Set gopls to log input and output messages."
    |>.defBool "help" false "Print help and exit."
    |>.defBool "pprof" false "Enable pprof web server (default address is localhost:9999)"
    |>.defString "http" "" "Enable http debug server by setting a listen address (e.g. localhost:7474)"

/-- The Arguments literal of generateCmd, read from the parsed flag set. -/
def generateArguments (cmd : FlagSet) : GenerateArguments :=
  { FileName := cmd.getString "f"
    Path := cmd.getString "path"
    Watch := cmd.getBool "watch"
    Command := cmd.getString "cmd"
    Proxy := cmd.getString "proxy"
    ProxyPort := cmd.getInt "proxyport"
    WorkerCount := cmd.getInt "w"
    GenerateSourceMapVisualisations := cmd.getBool "sourceMapVisualisations"
    IncludeVersion := cmd.getBool "include-version"
    IncludeTimestamp := cmd.getBool "include-timestamp"
    PPROFPort := cmd.getInt "pprof" }

/-- The Arguments literal of migrateCmd, read from the parsed flag set. -/
def migrateArguments (cmd : FlagSet) : MigrateArguments :=
  { FileName := cmd.getString "f"
    Path := cmd.getString "path" }

/-- The Arguments literal of lspCmd, read from the parsed flag set. -/
def lspArguments (cmd : FlagSet) : LspArguments :=
  { Log := cmd.getString "log"
    GoplsLog := cmd.getString "goplsLog"
    GoplsRPCTrace := cmd.getBool "goplsRPCTrace"
    PPROF := cmd.getBool "pprof"
    HTTPDebug := cmd.getString "http" }

/-- The shape shared by the four handlers: parse the arguments; when Parse
ends the process, stop there; when it returned an error or the help flag is
set, call PrintDefaults and return; otherwise call Run, and on an error print
its text with fmt.Println and call os.Exit(1). -/
def handler (h : Handler) (args : List String) (p : Parsed)
    (call : Event) (result : Option String) : Effect Unit :=
  match p.ending with
  | .exited code => ⟨Event.enter h args :: p.trace, .exited code⟩
  | .panicked _ => ⟨Event.enter h args :: p.trace, .panicked⟩
  | .returned err =>
    if err.isSome || p.flagSet.getBool "help" then
      ⟨Event.enter h args :: (p.trace ++ [p.flagSet.PrintDefaults]), .returned ()⟩
    else
      match result with
      | some msg => ⟨Event.enter h args :: (p.trace ++ [call, Event.stdout (msg ++ "\n")]), .exited 1⟩
      | none => ⟨Event.enter h args :: (p.trace ++ [call]), .returned ()⟩

/-- The function generateCmd. -/
def generateCmd (env : Env) (args : List String) : Effect Unit :=
  let p := (generateFlags env).Parse env args
  handler .generateCmd args p (Event.generateRun (generateArguments p.flagSet))
    (env.generateRun (generateArguments p.flagSet))

/-- The function migrateCmd. -/
def migrateCmd (env : Env) (args : List String) : Effect Unit :=
  let p := migrateFlags.Parse env args
  handler .migrateCmd args p (Event.migrateRun (migrateArguments p.flagSet))
    (env.migrateRun (migrateArguments p.flagSet))

/-- The function fmtCmd: Run receives the handler's own argument slice. -/
def fmtCmd (env : Env) (args : List String) : Effect Unit :=
  let p := fmtFlags.Parse env args
  handler .fmtCmd args p (Event.fmtRun args) (env.fmtRun args)

/-- The function lspCmd. -/
def lspCmd (env : Env) (args : List String) : Effect Unit :=
  let p := lspFlags.Parse env args
  handler .lspCmd args p (Event.lspRun (lspArguments p.flagSet))
    (env.lspRun (lspArguments p.flagSet))

/-- A call of a handler followed by the bare return of run, which returns the
named result code, still zero. -/
def Effect.thenReturn (e : Effect Unit) (code : Int) : Effect Int :=
  match e.outcome with
  | .returned _ => ⟨e.trace, .returned code⟩
  | .exited c => ⟨e.trace, .exited c⟩
  | .panicked => ⟨e.trace, .panicked⟩

/-- The function run. -/
def run (env : Env) (w : Writer) (args : List String) : Effect Int :=
  if args.length < 2 then ⟨[Event.write w usageText], .returned 0⟩
  else
    let command := args.getD 1 ""
    if command = "generate" then (generateCmd env (args.drop 2)).thenReturn 0
    else if command = "migrate" then (migrateCmd env (args.drop 2)).thenReturn 0
    else if command = "fmt" then (fmtCmd env (args.drop 2)).thenReturn 0
    else if command = "lsp" then (lspCmd env (args.drop 2)).thenReturn 0
    else if command = "version" then ⟨[Event.write w (env.Version ++ "\n")], .returned 0⟩
    else if command = "--version" then ⟨[Event.write w (env.Version ++ "\n")], .returned 0⟩
    else ⟨[Event.write w usageText], .returned 0⟩

/-- The function main: run on os.Stdout and the arguments of the process; the
code run returns is dropped. -/
def main (env : Env) (osArgs : List String) : Effect Unit :=
  match (run env Writer.stdout osArgs).outcome with
  | .returned _ => ⟨(run env Writer.stdout osArgs).trace, .returned ()⟩
  | .exited c => ⟨(run env Writer.stdout osArgs).trace, .exited c⟩
  | .panicked => ⟨(run env Writer.stdout osArgs).trace, .panicked⟩

/-- The value of a string of decimal digits, after the digits read so far. -/
def digitsValue : List Char → Nat → Option Nat
  | [], acc => some acc
  | c :: cs, acc =>
    if c.isDigit then digitsValue cs (acc * 10 + (c.toNat - 48)) else none

/-- A reading of integers for the sample environment: decimal digits with an
optional minus sign. -/
def decimal (s : String) : Option Int :=
  match s.toList with
  | [] => none
  | [c] => (digitsValue [c] 0).map Int.ofNat
  | c :: cs =>
    if c = '-' then (digitsValue cs 0).map (fun n => - Int.ofNat n)
    else (digitsValue (c :: cs) 0).map Int.ofNat

/-- An environment for evaluating examples: decimal integers, and Run
functions that fail exactly when asked for a file called bad. -/
def sampleEnv : Env :=
  { Version := "v0.2.432"
    NumCPU := 8
    ParseInt := decimal
    generateRun := fun a => if a.FileName = "bad" then some "boom" else none
    migrateRun := fun a => if a.FileName = "bad" then some "boom" else none
    fmtRun := fun args => if args = ["bad"] then some "boom" else none
    lspRun := fun a => if a.Log = "bad" then some "boom" else none }

/-- What one call of parseOne on f yields: a flag set with the registrations
of f and no more arguments than f, output of the flag package only, none of
it without an error, and one argument less at least when a flag was seen. -/
def StepOK (f : FlagSet) (st : ParseStep) : Prop :=
  f.sameFlags st.flagSet ∧ (∀ ev ∈ st.trace, ev.isFlagOutput = true) ∧
    (st.err = none → st.trace = []) ∧
    (st.seen = true → st.err = none ∧ st.flagSet.args.length < f.args.length) ∧
    st.flagSet.args.length ≤ f.args.length

/-! ## Vocabulary of the statements -/

/-- The word of the command line that selects the handler in run. -/
def Handler.command : Handler → String
  | .generateCmd => "generate"
  | .migrateCmd => "migrate"
  | .fmtCmd => "fmt"
  | .lspCmd => "lsp"

/-- The flag set the handler builds. -/
def Handler.flags (env : Env) : Handler → FlagSet
  | .generateCmd => generateFlags env
  | .migrateCmd => migrateFlags
  | .fmtCmd => fmtFlags
  | .lspCmd => lspFlags

/-- The function of main.go the handler stands for. -/
def Handler.body (env : Env) : Handler → List String → Effect Unit
  | .generateCmd => Templ.generateCmd env
  | .migrateCmd => Templ.migrateCmd env
  | .fmtCmd => Templ.fmtCmd env
  | .lspCmd => Templ.lspCmd env

/-- The listing of defaults of the handler, written out: for each flag the
handler registers its name, usage text and default, in ascending order of the
names. -/
def Handler.defaults (env : Env) : Handler → List (String × String × FlagValue)
  | .generateCmd =>
    [ ("cmd", "Set the command to run after generating code.", .str ""),
      ("f", "Optionally generates code for a single file, e.g. -f header.templ", .str ""),
      ("help", "Print help and exit.", .bool false),
      ("include-timestamp", "Set to true to include the current time in the generated code.", .bool false),
      ("include-version", "Set to false to skip inclusion of the templ version in the generated code.", .bool true),
      ("path", "Generates code for all files in path.", .str "."),
      ("pprof", "Port to start pprof web server on.", .int 0),
      ("proxy", "Set the URL to proxy after generating code and executing the command.", .str ""),
      ("proxyport", "The port the proxy will listen on.", .int 7331),
      ("sourceMapVisualisations", "Set to true to generate HTML files to visualise the templ code and its corresponding Go code.", .bool false),
      ("w", "Number of workers to run in parallel.", .int env.NumCPU),
      ("watch", "Set to true to watch the path for changes and regenerate code.", .bool false) ]
  | .migrateCmd =>
    [ ("f", "Optionally migrate a single file, e.g. -f header.templ", .str ""),
      ("help", "Print help and exit.", .bool false),
      ("path", "Migrates code for all files in path.", .str ".") ]
  | .fmtCmd =>
    [ ("help", "Print help and exit.", .bool false) ]
  | .lspCmd =>
    [ ("goplsLog", "The file to log gopls output, or leave empty to disable logging.", .str ""),
      ("goplsRPCTrace", "Set gopls to log input and output messages.", .bool false),
      ("help", "Print help and exit.", .bool false),
      ("http", "Enable http debug server by setting a listen address (e.g. localhost:7474)", .str ""),
      ("log", "The file to log templ LSP output to, or leave empty to disable logging.", .str ""),
      ("pprof", "Enable pprof web server (default address is localhost:9999)", .bool false) ]

/-- The call of Run the handler makes on the arguments args once they are
parsed. -/
def Handler.call (env : Env) (h : Handler) (args : List String) : Event :=
  match h with
  | .generateCmd => Event.generateRun (generateArguments ((generateFlags env).Parse env args).flagSet)
  | .migrateCmd => Event.migrateRun (migrateArguments (migrateFlags.Parse env args).flagSet)
  | .fmtCmd => Event.fmtRun args
  | .lspCmd => Event.lspRun (lspArguments (lspFlags.Parse env args).flagSet)

/-- The error that call of Run returns. -/
def Handler.result (env : Env) (h : Handler) (args : List String) : Option String :=
  match h with
  | .generateCmd => env.generateRun (generateArguments ((generateFlags env).Parse env args).flagSet)
  | .migrateCmd => env.migrateRun (migrateArguments (migrateFlags.Parse env args).flagSet)
  | .fmtCmd => env.fmtRun args
  | .lspCmd => env.lspRun (lspArguments (lspFlags.Parse env args).flagSet)

/-- The Arguments generateCmd passes when every flag but w holds the default
registered for it, with the given worker count. -/
def defaultArguments (workers : Int) : GenerateArguments :=
  { FileName := "", Path := ".", Watch := false, Command := "", Proxy := "", ProxyPort := 7331,
    WorkerCount := workers, GenerateSourceMapVisualisations := false, IncludeVersion := true,
    IncludeTimestamp := false, PPROFPort := 0 }

/-- The six words run recognises as args[1]. -/
def recognised : List String :=
  ["generate", "migrate", "fmt", "lsp", "version", "--version"]

/-! ## Properties of the flag package -/

theorem FlagSet.sameFlags_refl (f : FlagSet) : f.sameFlags f := ⟨rfl, rfl, rfl⟩

theorem FlagSet.sameFlags_trans {f g h : FlagSet} (h1 : f.sameFlags g) (h2 : g.sameFlags h) :
    f.sameFlags h :=
  ⟨h2.1.trans h1.1, h2.2.1.trans h1.2.1, h2.2.2.trans h1.2.2⟩

theorem FlagSet.sameFlags_args (f : FlagSet) (rest : List String) :
    f.sameFlags { f with args := rest } := ⟨rfl, rfl, rfl⟩

theorem FlagValue.set_kind {env : Env} {v w : FlagValue} {text : String}
    (h : v.set env text = some w) : w.kind = v.kind := by
  cases v with
  | str s => simp only [FlagValue.set, Option.some.injEq] at h; subst h; rfl
  | bool b =>
    simp only [FlagValue.set] at h
    cases hb : ParseBool text with
    | none => rw [hb] at h; cases h
    | some c => rw [hb] at h; cases h; rfl
  | int n =>
    simp only [FlagValue.set] at h
    cases hb : env.ParseInt text with
    | none => rw [hb] at h; cases h
    | some c => rw [hb] at h; cases h; rfl

theorem storeIn_signature (name : String) (v : FlagValue) (l : List Flag) (fl : Flag)
    (hl : l.find? (fun x => x.name == name) = some fl) (hk : v.kind = fl.value.kind) :
    (storeIn name v l).map Flag.signature = l.map Flag.signature := by
  induction l with
  | nil => rfl
  | cons x xs ih =>
    rw [List.find?_cons] at hl
    by_cases hx : x.name = name
    · have hb : (x.name == name) = true := by simp [hx]
      rw [hb] at hl
      cases hl
      simp [storeIn, hx, Flag.signature, hk]
    · have hb : (x.name == name) = false := by simp [hx]
      rw [hb] at hl
      simp [storeIn, hx, ih hl]

theorem FlagSet.store_sameFlags (f : FlagSet) (name : String) (v : FlagValue) (fl : Flag)
    (hl : f.lookup name = some fl) (hk : v.kind = fl.value.kind) :
    f.sameFlags (f.store name v) :=
  ⟨rfl, rfl, storeIn_signature name v f.formal fl hl hk⟩

theorem FlagSet.failf_flagOutput (f : FlagSet) (e : FlagError) :
    ∀ ev ∈ f.failf e, ev.isFlagOutput = true := by
  intro ev hev
  simp [FlagSet.failf, FlagSet.usage, FlagSet.PrintDefaults] at hev
  rcases hev with rfl | rfl | rfl <;> rfl

theorem FlagSet.usage_flagOutput (f : FlagSet) :
    ∀ ev ∈ f.usage, ev.isFlagOutput = true := by
  intro ev hev
  simp [FlagSet.usage, FlagSet.PrintDefaults] at hev
  rcases hev with rfl | rfl <;> rfl

theorem stepOK_fail (f g : FlagSet) (tr : List Event) (e : FlagError) (h : f.sameFlags g)
    (htr : ∀ ev ∈ tr, ev.isFlagOutput = true) (hlen : g.args.length ≤ f.args.length) :
    StepOK f ⟨g, tr, false, some e⟩ :=
  ⟨h, htr, by simp, by simp, hlen⟩

theorem stepOK_set (f g : FlagSet) (h : f.sameFlags g) (hlen : g.args.length < f.args.length) :
    StepOK f ⟨g, [], true, none⟩ :=
  ⟨h, by simp, by simp, fun _ => ⟨rfl, hlen⟩, Nat.le_of_lt hlen⟩

theorem stepOK_stop (f g : FlagSet) (h : f.sameFlags g) (hlen : g.args.length ≤ f.args.length) :
    StepOK f ⟨g, [], false, none⟩ :=
  ⟨h, by simp, by simp, by simp, hlen⟩

theorem FlagSet.assign_ok (env : Env) (f0 f : FlagSet) (name : String) (hasValue : Bool)
    (value : String) (h0 : f0.sameFlags f) (hlen : f.args.length < f0.args.length) :
    StepOK f0 (f.assign env name hasValue value) := by
  unfold FlagSet.assign
  split
  · split
    · exact stepOK_fail _ _ _ _ h0 (f.usage_flagOutput) (Nat.le_of_lt hlen)
    · exact stepOK_fail _ _ _ _ h0 (f.failf_flagOutput _) (Nat.le_of_lt hlen)
  · rename_i fl hfl
    split
    · split
      · exact stepOK_fail _ _ _ _ h0 (f.failf_flagOutput _) (Nat.le_of_lt hlen)
      · rename_i v hv
        exact stepOK_set _ _
          (FlagSet.sameFlags_trans h0 (f.store_sameFlags name v fl hfl (FlagValue.set_kind hv))) hlen
    · split
      · split
        · exact stepOK_fail _ _ _ _ h0 (f.failf_flagOutput _) (Nat.le_of_lt hlen)
        · rename_i v hv
          exact stepOK_set _ _
            (FlagSet.sameFlags_trans h0 (f.store_sameFlags name v fl hfl (FlagValue.set_kind hv))) hlen
      · split
        · exact stepOK_fail _ _ _ _ h0 (f.failf_flagOutput _) (Nat.le_of_lt hlen)
        · rename_i next rest hargs
          have hlen2 : rest.length < f0.args.length := by
            rw [hargs] at hlen; simp at hlen; omega
          split
          · exact stepOK_fail _ _ _ _ (FlagSet.sameFlags_trans h0 (f.sameFlags_args rest))
              (FlagSet.failf_flagOutput _ _) (Nat.le_of_lt hlen2)
          · rename_i v hv
            refine stepOK_set _ _ (FlagSet.sameFlags_trans h0 ?_) hlen2
            exact FlagSet.sameFlags_trans (f.sameFlags_args rest)
              (FlagSet.store_sameFlags _ name v fl hfl (FlagValue.set_kind hv))

theorem FlagSet.parseOne_ok (env : Env) (f : FlagSet) : StepOK f (f.parseOne env) := by
  unfold FlagSet.parseOne
  split
  · exact stepOK_stop _ _ f.sameFlags_refl (Nat.le_refl _)
  · rename_i s rest hargs
    have hlen : rest.length < f.args.length := by rw [hargs]; simp
    split
    · exact stepOK_stop _ _ f.sameFlags_refl (Nat.le_refl _)
    · dsimp only
      split
      · split
        · exact stepOK_stop _ _ (f.sameFlags_args rest) (Nat.le_of_lt hlen)
        · split
          · exact stepOK_fail _ _ _ _ f.sameFlags_refl (f.failf_flagOutput _) (Nat.le_refl _)
          · exact FlagSet.assign_ok env f _ _ _ _ (f.sameFlags_args rest) hlen
      · split
        · exact stepOK_stop _ _ (f.sameFlags_args rest) (Nat.le_of_lt hlen)
        · split
          · exact stepOK_fail _ _ _ _ f.sameFlags_refl (f.failf_flagOutput _) (Nat.le_refl _)
          · exact FlagSet.assign_ok env f _ _ _ _ (f.sameFlags_args rest) hlen

theorem FlagSet.parseLoop_some (env : Env) :
    ∀ (fuel : Nat) (f : FlagSet) (tr : List Event), f.args.length < fuel →
      ∃ p, FlagSet.parseLoop env fuel f tr = some p := by
  intro fuel
  induction fuel with
  | zero => intro f tr h; omega
  | succ n ih =>
    intro f tr h
    have hok := f.parseOne_ok env
    simp only [FlagSet.parseLoop]
    generalize f.parseOne env = st at hok
    obtain ⟨g, t, seen, err⟩ := st
    obtain ⟨_, _, _, hseen, _⟩ := hok
    cases seen with
    | true =>
      have := (hseen rfl).2
      simp only [if_true]
      exact ih g (tr ++ t) (by simp only at this; omega)
    | false =>
      simp only [Bool.false_eq_true, if_false]
      cases err with
      | none => exact ⟨_, rfl⟩
      | some e =>
        cases f.errorHandling with
        | ContinueOnError => exact ⟨_, rfl⟩
        | ExitOnError =>
          dsimp only
          split <;> exact ⟨_, rfl⟩
        | PanicOnError => exact ⟨_, rfl⟩

theorem FlagSet.parseLoop_spec (env : Env) :
    ∀ (fuel : Nat) (f : FlagSet) (tr : List Event) (p : Parsed),
      FlagSet.parseLoop env fuel f tr = some p →
      f.sameFlags p.flagSet ∧
      (∃ out, p.trace = tr ++ out ∧ (∀ ev ∈ out, ev.isFlagOutput = true) ∧
        (p.ending = .returned none → out = [])) ∧
      (f.errorHandling = .ExitOnError →
        p.ending = .returned none ∨ p.ending = .exited 0 ∨ p.ending = .exited 2) := by
  intro fuel
  induction fuel with
  | zero => intro f tr p h; simp [FlagSet.parseLoop] at h
  | succ n ih =>
    intro f tr p h
    have hok := f.parseOne_ok env
    simp only [FlagSet.parseLoop] at h
    generalize f.parseOne env = st at hok h
    obtain ⟨g, t, seen, err⟩ := st
    obtain ⟨hsame, hout, herr, hseen, _⟩ := hok
    simp only at hsame hout herr hseen h
    cases seen with
    | true =>
      simp only [if_true] at h
      obtain ⟨h1, ⟨out, h2, h3, h4⟩, h5⟩ := ih g (tr ++ t) p h
      have ht : t = [] := herr (hseen rfl).1
      subst ht
      refine ⟨FlagSet.sameFlags_trans hsame h1, ⟨out, by simpa using h2, h3, h4⟩, ?_⟩
      intro he
      exact h5 (hsame.2.1.trans he)
    | false =>
      simp only [Bool.false_eq_true, if_false] at h
      cases err with
      | none =>
        simp only [Option.some.injEq] at h
        subst h
        have ht : t = [] := herr rfl
        subst ht
        exact ⟨hsame, ⟨[], rfl, by simp, fun _ => rfl⟩, fun _ => Or.inl rfl⟩
      | some e =>
        cases hh : f.errorHandling with
        | ContinueOnError =>
          rw [hh] at h
          simp only [Option.some.injEq] at h
          subst h
          exact ⟨hsame, ⟨t, rfl, hout, by simp⟩, by simp⟩
        | ExitOnError =>
          rw [hh] at h
          dsimp only at h
          split at h
          · simp only [Option.some.injEq] at h
            subst h
            exact ⟨hsame, ⟨t, rfl, hout, by simp⟩, fun _ => Or.inr (Or.inl rfl)⟩
          · simp only [Option.some.injEq] at h
            subst h
            exact ⟨hsame, ⟨t, rfl, hout, by simp⟩, fun _ => Or.inr (Or.inr rfl)⟩
        | PanicOnError =>
          rw [hh] at h
          simp only [Option.some.injEq] at h
          subst h
          exact ⟨hsame, ⟨t, rfl, hout, by simp⟩, by simp⟩

/-- Parse is the loop with enough fuel: the default of getD is not used. -/
theorem FlagSet.Parse_eq (env : Env) (f : FlagSet) (arguments : List String) :
    FlagSet.parseLoop env (arguments.length + 1) { f with args := arguments } [] =
      some (f.Parse env arguments) := by
  obtain ⟨p, hp⟩ := FlagSet.parseLoop_some env (arguments.length + 1)
    { f with args := arguments } [] (by simp)
  simp [FlagSet.Parse, hp]

theorem FlagSet.Parse_spec (env : Env) (f : FlagSet) (arguments : List String) :
    f.sameFlags (f.Parse env arguments).flagSet ∧
      (∀ ev ∈ (f.Parse env arguments).trace, ev.isFlagOutput = true) ∧
      ((f.Parse env arguments).ending = .returned none → (f.Parse env arguments).trace = []) ∧
      (f.errorHandling = .ExitOnError →
        (f.Parse env arguments).ending = .returned none ∨
        (f.Parse env arguments).ending = .exited 0 ∨
        (f.Parse env arguments).ending = .exited 2) := by
  obtain ⟨h1, ⟨out, h2, h3, h4⟩, h5⟩ :=
    FlagSet.parseLoop_spec env _ _ _ _ (FlagSet.Parse_eq env f arguments)
  simp only [List.nil_append] at h2
  refine ⟨FlagSet.sameFlags_trans (f.sameFlags_args arguments) h1, ?_, ?_, h5⟩
  · rw [h2]; exact h3
  · intro h; rw [h2]; exact h4 h


/-! ## Properties of main.go -/

theorem filter_isEnter_flagOutput (l : List Event) (h : ∀ ev ∈ l, ev.isFlagOutput = true) :
    l.filter Event.isEnter = [] := by
  rw [List.filter_eq_nil_iff]
  intro ev hev
  have := h ev hev
  cases ev <;> simp_all [Event.isFlagOutput, Event.isEnter]

theorem filter_reaches_flagOutput (n : Nat) (l : List Event)
    (h : ∀ ev ∈ l, ev.isFlagOutput = true) :
    l.filter (Event.reaches (Writer.other n)) = [] := by
  rw [List.filter_eq_nil_iff]
  intro ev hev
  have := h ev hev
  cases ev <;> simp_all [Event.isFlagOutput, Event.reaches]

theorem insertFlag_signature (a b : Flag) (hab : a.signature = b.signature) :
    ∀ (l l0 : List Flag), l.map Flag.signature = l0.map Flag.signature →
      (insertFlag a l).map Flag.signature = (insertFlag b l0).map Flag.signature
  | [], [], _ => by simp [insertFlag, hab]
  | [], _ :: _, h => by simp at h
  | _ :: _, [], h => by simp at h
  | x :: xs, y :: ys, h => by
    simp only [List.map_cons, List.cons.injEq] at h
    have hn : x.name = y.name := congrArg Prod.fst h.1
    have ha : a.name = b.name := congrArg Prod.fst hab
    simp only [insertFlag, ha, hn]
    split
    · simp [hab, h.1, h.2]
    · simp [h.1, insertFlag_signature a b hab xs ys h.2]

theorem sortFlags_signature :
    ∀ (l l0 : List Flag), l.map Flag.signature = l0.map Flag.signature →
      (sortFlags l).map Flag.signature = (sortFlags l0).map Flag.signature
  | [], [], _ => rfl
  | [], _ :: _, h => by simp at h
  | _ :: _, [], h => by simp at h
  | x :: xs, y :: ys, h => by
    simp only [List.map_cons, List.cons.injEq] at h
    simp only [sortFlags]
    exact insertFlag_signature x y h.1 _ _ (sortFlags_signature xs ys h.2)

theorem FlagSet.PrintDefaults_sameFlags {f g : FlagSet} (h : f.sameFlags g) :
    g.PrintDefaults = f.PrintDefaults := by
  have h3 := congrArg
    (List.map (fun (x : String × String × FlagValue × FlagKind) => (x.1, x.2.1, x.2.2.1)))
    (sortFlags_signature _ _ h.2.2)
  simp only [List.map_map] at h3
  simp only [FlagSet.PrintDefaults]
  congr 1

/-- The effect of a handler whose arguments parse. -/
theorem handler_parsed (h : Handler) (args : List String) (p : Parsed) (call : Event)
    (result : Option String) (hend : p.ending = .returned none) (htr : p.trace = []) :
    handler h args p call result =
      if p.flagSet.getBool "help" then
        ⟨[Event.enter h args, p.flagSet.PrintDefaults], .returned ()⟩
      else
        match result with
        | some msg => ⟨[Event.enter h args, call, Event.stdout (msg ++ "\n")], .exited 1⟩
        | none => ⟨[Event.enter h args, call], .returned ()⟩ := by
  unfold handler
  rw [hend, htr]
  simp

theorem Handler.body_eq (env : Env) (h : Handler) (args : List String) :
    h.body env args =
      handler h args ((h.flags env).Parse env args) (h.call env args) (h.result env args) := by
  cases h <;> rfl

theorem Handler.flags_exitOnError (env : Env) (h : Handler) :
    (h.flags env).errorHandling = .ExitOnError := by
  cases h <;> rfl

/-- Every handler ends by returning or by os.Exit with code 0, 1 or 2; with
the ExitOnError policy Parse hands no error back and does not panic. -/
theorem Handler.body_outcome (env : Env) (h : Handler) (args : List String) :
    (h.body env args).outcome = .returned () ∨ (h.body env args).outcome = .exited 0 ∨
      (h.body env args).outcome = .exited 1 ∨ (h.body env args).outcome = .exited 2 := by
  have hend := ((h.flags env).Parse_spec env args).2.2.2 (h.flags_exitOnError env)
  rw [Handler.body_eq]
  unfold handler
  rcases hend with he | he | he <;> rw [he] <;> dsimp only
  · split
    · exact Or.inl rfl
    · split
      · exact Or.inr (Or.inr (Or.inl rfl))
      · exact Or.inl rfl
  · exact Or.inr (Or.inl rfl)
  · exact Or.inr (Or.inr (Or.inr rfl))

/-- The listing PrintDefaults makes for the flag set of a handler is the one
written out in Handler.defaults. -/
theorem Handler.PrintDefaults_eq (env : Env) (h : Handler) :
    (h.flags env).PrintDefaults = Event.printDefaults (h.defaults env) := by
  cases h <;> rfl

theorem run_command (env : Env) (w : Writer) (h : Handler) (a0 : String) (rest : List String) :
    run env w (a0 :: h.command :: rest) = (h.body env rest).thenReturn 0 := by
  cases h <;> simp [run, Handler.command, Handler.body]

theorem handler_filter_isEnter (n : Nat) (h : Handler) (args : List String) (p : Parsed)
    (call : Event) (result : Option String) (hp : ∀ ev ∈ p.trace, ev.isFlagOutput = true)
    (hc : call.isRun = true) :
    (handler h args p call result).trace.filter Event.isEnter = [Event.enter h args] ∧
      (handler h args p call result).trace.filter (Event.reaches (Writer.other n)) = [] := by
  have h1 := filter_isEnter_flagOutput p.trace hp
  have h2 := filter_reaches_flagOutput n p.trace hp
  have h3 : call.isEnter = false := by cases call <;> simp_all [Event.isRun, Event.isEnter]
  have h4 : call.reaches (Writer.other n) = false := by
    cases call <;> simp_all [Event.isRun, Event.reaches]
  have e1 : (Event.enter h args).isEnter = true := rfl
  have e2 : (Event.enter h args).reaches (Writer.other n) = false := rfl
  have e3 : p.flagSet.PrintDefaults.isEnter = false := rfl
  have e4 : p.flagSet.PrintDefaults.reaches (Writer.other n) = false := by
    simp [FlagSet.PrintDefaults, Event.reaches]
  have e5 : ∀ s, (Event.stdout s).isEnter = false := fun _ => rfl
  have e6 : ∀ s, (Event.stdout s).reaches (Writer.other n) = false := by
    intro s
    simp [Event.reaches]
  unfold handler
  split
  · simp [List.filter_cons, e1, e2, h1, h2]
  · simp [List.filter_cons, e1, e2, h1, h2]
  · split
    · simp [List.filter_cons, e1, e2, e3, e4, h1, h2]
    · split
      · simp [List.filter_cons, e1, e2, e5, e6, h1, h2, h3, h4]
      · simp [List.filter_cons, e1, e2, h1, h2, h3, h4]

theorem handler_no_write (h : Handler) (args : List String) (p : Parsed)
    (call : Event) (result : Option String) (hp : ∀ ev ∈ p.trace, ev.isFlagOutput = true)
    (hc : call.isRun = true) (v : Writer) (s : String) :
    Event.write v s ∉ (handler h args p call result).trace := by
  have h1 : Event.write v s ∉ p.trace := fun hm => by
    have := hp _ hm
    simp [Event.isFlagOutput] at this
  have h2 : Event.write v s ≠ call := fun he => by
    rw [← he] at hc
    simp [Event.isRun] at hc
  have h2b : ¬ call = Event.write v s := fun he => h2 he.symm
  unfold handler
  split
  · simp [h1]
  · simp [h1]
  · split
    · simp [h1, FlagSet.PrintDefaults]
    · split
      · simp [h1, h2]
      · simp [h1, h2]

theorem Handler.call_isRun (env : Env) (h : Handler) (args : List String) :
    (h.call env args).isRun = true := by
  cases h <;> rfl

theorem Effect.thenReturn_trace (e : Effect Unit) (code : Int) :
    (e.thenReturn code).trace = e.trace := by
  unfold Effect.thenReturn
  split <;> rfl

/-- C1: for each of generate, migrate, fmt and lsp and every argument list
that parses with the help flag not set: when Run returns an error, run prints
the text of the error and a newline on standard output, after the call and as
the only print, and the process ends with exit code 1; when Run returns no
error nothing is printed and run returns 0. -/
theorem run_reports_run_error (env : Env) (w : Writer) (h : Handler) (a0 : String)
    (rest : List String)
    (hparse : ((h.flags env).Parse env rest).ending = .returned none)
    (hhelp : ((h.flags env).Parse env rest).flagSet.getBool "help" = false) :
    (∀ msg, h.result env rest = some msg →
      run env w (a0 :: h.command :: rest) =
        ⟨[Event.enter h rest, h.call env rest, Event.stdout (msg ++ "\n")], .exited 1⟩) ∧
    (h.result env rest = none →
      run env w (a0 :: h.command :: rest) =
        ⟨[Event.enter h rest, h.call env rest], .returned 0⟩) := by
  have htr := ((h.flags env).Parse_spec env rest).2.2.1 hparse
  rw [run_command, Handler.body_eq, handler_parsed h rest _ _ _ hparse htr, hhelp]
  constructor
  · intro msg hmsg
    rw [hmsg]
    rfl
  · intro hnone
    rw [hnone]
    rfl

theorem run_reports_run_error_witness :
    ((Handler.generateCmd.flags sampleEnv).Parse sampleEnv ["-f", "bad"]).ending = .returned none ∧
    ((Handler.generateCmd.flags sampleEnv).Parse sampleEnv ["-f", "bad"]).flagSet.getBool "help" = false ∧
    Handler.generateCmd.result sampleEnv ["-f", "bad"] = some "boom" ∧
    (run sampleEnv Writer.stdout ["templ", "generate", "-f", "bad"]).outcome = .exited 1 ∧
    (run sampleEnv Writer.stdout ["templ", "generate", "-f", "bad"]).trace.filter Event.isStdout =
      [Event.stdout "boom\n"] :=
  ⟨by decide, by decide, by decide,
    by
      rw [show (["templ", "generate", "-f", "bad"] : List String) =
        "templ" :: Handler.generateCmd.command :: ["-f", "bad"] from rfl,
        (run_reports_run_error sampleEnv Writer.stdout .generateCmd "templ" ["-f", "bad"]
          (by decide) (by decide)).1 "boom" (by decide)],
    by
      rw [show (["templ", "generate", "-f", "bad"] : List String) =
        "templ" :: Handler.generateCmd.command :: ["-f", "bad"] from rfl,
        (run_reports_run_error sampleEnv Writer.stdout .generateCmd "templ" ["-f", "bad"]
          (by decide) (by decide)).1 "boom" (by decide)]
      decide⟩

/-- C8: for each of generate, migrate, fmt and lsp and every argument list
that parses with the help flag set, the handler prints the defaults of its
flags (the listing written out in Handler.defaults: every flag it registers,
by ascending name, with its usage text and default) and returns; Run is not
called, and run returns 0. -/
theorem run_help_prints_defaults (env : Env) (w : Writer) (h : Handler) (a0 : String)
    (rest : List String)
    (hparse : ((h.flags env).Parse env rest).ending = .returned none)
    (hhelp : ((h.flags env).Parse env rest).flagSet.getBool "help" = true) :
    run env w (a0 :: h.command :: rest) =
      ⟨[Event.enter h rest, Event.printDefaults (h.defaults env)], .returned 0⟩ := by
  have hspec := (h.flags env).Parse_spec env rest
  rw [run_command, Handler.body_eq, handler_parsed h rest _ _ _ hparse (hspec.2.2.1 hparse), hhelp,
    FlagSet.PrintDefaults_sameFlags hspec.1, Handler.PrintDefaults_eq]
  rfl

theorem run_help_prints_defaults_witness :
    (lspFlags.Parse sampleEnv ["-log", "x", "--help"]).ending = .returned none ∧
    (lspFlags.Parse sampleEnv ["-log", "x", "--help"]).flagSet.getBool "help" = true ∧
    run sampleEnv Writer.stdout ["templ", "lsp", "-log", "x", "--help"] =
      ⟨[Event.enter .lspCmd ["-log", "x", "--help"],
        Event.printDefaults
          [ ("goplsLog", "The file to log gopls output, or leave empty to disable logging.", .str ""),
            ("goplsRPCTrace", "Set gopls to log input and output messages.", .bool false),
            ("help", "Print help and exit.", .bool false),
            ("http", "Enable http debug server by setting a listen address (e.g. localhost:7474)", .str ""),
            ("log", "The file to log templ LSP output to, or leave empty to disable logging.", .str ""),
            ("pprof", "Enable pprof web server (default address is localhost:9999)", .bool false) ]],
        .returned 0⟩ :=
  ⟨by decide, by decide,
    run_help_prints_defaults sampleEnv Writer.stdout .lspCmd "templ" ["-log", "x", "--help"]
      (by decide) (by decide)⟩

/-- C10, as the code has it: for every argument list whose second element is
generate, migrate, fmt or lsp, run is the call of the matching handler on the
elements after the command word followed by a return of 0, whatever the
writer w; that handler is entered once, with that list, and no other handler
is entered; run makes no write through a writer, so that nothing reaches w
when w is a writer other than os.Stdout and os.Stderr; and the first element
of the argument list has no influence. -/
theorem run_dispatches_to_handler (env : Env) (w : Writer) (n : Nat) (h : Handler)
    (a0 b0 : String) (rest : List String) :
    run env w (a0 :: h.command :: rest) = (h.body env rest).thenReturn 0 ∧
    (run env w (a0 :: h.command :: rest)).trace.filter Event.isEnter = [Event.enter h rest] ∧
    (∀ (v : Writer) (s : String), Event.write v s ∉ (run env w (a0 :: h.command :: rest)).trace) ∧
    (run env (Writer.other n) (a0 :: h.command :: rest)).trace.filter
      (Event.reaches (Writer.other n)) = [] ∧
    run env w (b0 :: h.command :: rest) = run env w (a0 :: h.command :: rest) := by
  have hf := handler_filter_isEnter n h rest ((h.flags env).Parse env rest) (h.call env rest)
    (h.result env rest) ((h.flags env).Parse_spec env rest).2.1 (h.call_isRun env rest)
  refine ⟨run_command env w h a0 rest, ?_, ?_, ?_, ?_⟩
  · rw [run_command, Effect.thenReturn_trace, Handler.body_eq]
    exact hf.1
  · intro v s
    rw [run_command, Effect.thenReturn_trace, Handler.body_eq]
    exact handler_no_write h rest _ _ _ ((h.flags env).Parse_spec env rest).2.1
      (h.call_isRun env rest) v s
  · rw [run_command, Effect.thenReturn_trace, Handler.body_eq]
    exact hf.2
  · rw [run_command, run_command]

/-- C10 fails as stated: main hands os.Stdout to run as w, and on the argument
list templ generate -f bad, where Run fails with the error boom, the handler
prints the text boom and a newline on os.Stdout, so that text is written to
w.  In the same way the listing of generate -help reaches w when w is
os.Stderr. -/
theorem run_handler_print_reaches_stdout :
    (run sampleEnv Writer.stdout ["templ", "generate", "-f", "bad"]).trace.filter
      (Event.reaches Writer.stdout) = [Event.stdout "boom\n"] ∧
    (main sampleEnv ["templ", "generate", "-f", "bad"]).trace =
      (run sampleEnv Writer.stdout ["templ", "generate", "-f", "bad"]).trace ∧
    ¬ (run sampleEnv Writer.stdout ["templ", "generate", "-f", "bad"]).trace.filter
      (Event.reaches Writer.stdout) = [] ∧
    ¬ (run sampleEnv Writer.stderr ["templ", "generate", "-help"]).trace.filter
      (Event.reaches Writer.stderr) = [] := by
  refine ⟨by decide, by decide, by decide, by decide⟩

/-- C3: for every argument list whose second element is version or --version,
whatever the first and the later elements, run writes the version and one
newline to w, does nothing else, and returns 0; the two spellings have the
same effect. -/
theorem run_version (env : Env) (w : Writer) (a0 b0 : String) (rest rest2 : List String) :
    run env w (a0 :: "version" :: rest) =
      ⟨[Event.write w (env.Version ++ "\n")], .returned 0⟩ ∧
    run env w (b0 :: "--version" :: rest2) =
      ⟨[Event.write w (env.Version ++ "\n")], .returned 0⟩ := by
  constructor <;> simp [run]

/-- C9: for every argument list with fewer than two elements, or whose
second element is none of the six recognised words, run writes the usage text
to w once, and that is all it does: no handler is entered. -/
theorem run_usage (env : Env) (w : Writer) (args : List String)
    (h : args.length < 2 ∨ args.getD 1 "" ∉ recognised) :
    (run env w args).trace = [Event.write w usageText] := by
  unfold run
  split
  · rfl
  · rename_i hlen
    have hn : args.getD 1 "" ∉ recognised := h.resolve_left hlen
    simp only [recognised, List.mem_cons, List.mem_singleton, not_or, List.not_mem_nil,
      or_false] at hn
    obtain ⟨h1, h2, h3, h4, h5, h6⟩ := hn
    dsimp only
    rw [if_neg h1, if_neg h2, if_neg h3, if_neg h4, if_neg h5, if_neg h6]

theorem run_usage_witness :
    (["templ", "Generate", "-f", "x"].length < 2 ∨
      ["templ", "Generate", "-f", "x"].getD 1 "" ∉ recognised) ∧
    (run sampleEnv Writer.stdout ["templ", "Generate", "-f", "x"]).trace =
      [Event.write Writer.stdout usageText] :=
  ⟨Or.inr (by decide),
    run_usage sampleEnv Writer.stdout ["templ", "Generate", "-f", "x"] (Or.inr (by decide))⟩

/-- C2, as the code has it: for every argument list that names no recognised
command, run returns the exit code 0. -/
theorem run_usage_returns_zero (env : Env) (w : Writer) (args : List String)
    (h : args.length < 2 ∨ args.getD 1 "" ∉ recognised) :
    (run env w args).outcome = .returned 0 := by
  unfold run
  split
  · rfl
  · rename_i hlen
    have hn : args.getD 1 "" ∉ recognised := h.resolve_left hlen
    simp only [recognised, List.mem_cons, List.mem_singleton, not_or, List.not_mem_nil,
      or_false] at hn
    obtain ⟨h1, h2, h3, h4, h5, h6⟩ := hn
    dsimp only
    rw [if_neg h1, if_neg h2, if_neg h3, if_neg h4, if_neg h5, if_neg h6]

theorem run_usage_returns_zero_witness :
    (["templ"].length < 2 ∨ ["templ"].getD 1 "" ∉ recognised) ∧
    (run sampleEnv Writer.stdout ["templ"]).outcome = .returned 0 :=
  ⟨Or.inl (by decide), run_usage_returns_zero sampleEnv Writer.stdout ["templ"] (Or.inl (by decide))⟩

/-- C2 fails as stated: the argument list templ frobnicate names no recognised
command, and run returns 0 on it, so no non-zero code is returned. -/
theorem run_unknown_command_returns_zero :
    ["templ", "frobnicate"].getD 1 "" ∉ recognised ∧
    (run sampleEnv Writer.stdout ["templ", "frobnicate"]).outcome = .returned 0 ∧
    ¬ ∃ code : Int, code ≠ 0 ∧
      (run sampleEnv Writer.stdout ["templ", "frobnicate"]).outcome = .returned code := by
  refine ⟨by decide, by decide, ?_⟩
  rintro ⟨code, hne, hc⟩
  have h0 : (run sampleEnv Writer.stdout ["templ", "frobnicate"]).outcome = .returned 0 := by
    decide
  rw [h0] at hc
  cases hc
  exact hne rfl

/-! ## The arguments handed to generatecmd.Run -/

theorem find_signature (n : String) :
    ∀ (l l0 : List Flag), l.map Flag.signature = l0.map Flag.signature →
      (l.find? (fun x => x.name == n)).map Flag.signature =
        (l0.find? (fun x => x.name == n)).map Flag.signature
  | [], [], _ => rfl
  | [], _ :: _, h => by simp at h
  | _ :: _, [], h => by simp at h
  | x :: xs, y :: ys, h => by
    simp only [List.map_cons, List.cons.injEq] at h
    have hn : x.name = y.name := congrArg Prod.fst h.1
    rw [List.find?_cons, List.find?_cons, hn]
    cases (y.name == n)
    · exact find_signature n xs ys h.2
    · simp [h.1]

theorem FlagSet.lookup_kind {f g : FlagSet} (h : f.sameFlags g) (n : String) :
    (g.lookup n).map (fun fl => fl.value.kind) = (f.lookup n).map (fun fl => fl.value.kind) := by
  have := congrArg (Option.map (fun (x : String × String × FlagValue × FlagKind) => x.2.2.2))
    (find_signature n g.formal f.formal h.2.2)
  simpa [FlagSet.lookup, Option.map_map, Function.comp_def, Flag.signature] using this

theorem FlagSet.valueOf_str {f g : FlagSet} (h : f.sameFlags g) (n : String)
    (hk : (f.lookup n).map (fun fl => fl.value.kind) = some .str) :
    g.valueOf n = some (.str (g.getString n)) := by
  have hg := (FlagSet.lookup_kind h n).trans hk
  cases hl : g.lookup n with
  | none => rw [hl] at hg; cases hg
  | some fl =>
    rw [hl] at hg
    obtain ⟨nm, us, val, dv⟩ := fl
    cases val <;> simp [FlagValue.kind] at hg
    simp [FlagSet.valueOf, FlagSet.getString, hl]

theorem FlagSet.valueOf_bool {f g : FlagSet} (h : f.sameFlags g) (n : String)
    (hk : (f.lookup n).map (fun fl => fl.value.kind) = some .bool) :
    g.valueOf n = some (.bool (g.getBool n)) := by
  have hg := (FlagSet.lookup_kind h n).trans hk
  cases hl : g.lookup n with
  | none => rw [hl] at hg; cases hg
  | some fl =>
    rw [hl] at hg
    obtain ⟨nm, us, val, dv⟩ := fl
    cases val <;> simp [FlagValue.kind] at hg
    simp [FlagSet.valueOf, FlagSet.getBool, hl]

theorem FlagSet.valueOf_int {f g : FlagSet} (h : f.sameFlags g) (n : String)
    (hk : (f.lookup n).map (fun fl => fl.value.kind) = some .int) :
    g.valueOf n = some (.int (g.getInt n)) := by
  have hg := (FlagSet.lookup_kind h n).trans hk
  cases hl : g.lookup n with
  | none => rw [hl] at hg; cases hg
  | some fl =>
    rw [hl] at hg
    obtain ⟨nm, us, val, dv⟩ := fl
    cases val <;> simp [FlagValue.kind] at hg
    simp [FlagSet.valueOf, FlagSet.getInt, hl]

/-- C4: for every argument list the generate flag set accepts with the help
flag not set, generateCmd calls generatecmd.Run once, and each field of the
Arguments it passes is the value held after parsing by the flag of that
field: f in FileName, path in Path, watch in Watch, cmd in Command, proxy in
Proxy, proxyport in ProxyPort, w in WorkerCount, sourceMapVisualisations in
GenerateSourceMapVisualisations, include-version in IncludeVersion,
include-timestamp in IncludeTimestamp, pprof in PPROFPort. -/
theorem generateCmd_passes_flags (env : Env) (args : List String)
    (hparse : ((generateFlags env).Parse env args).ending = .returned none)
    (hhelp : ((generateFlags env).Parse env args).flagSet.getBool "help" = false) :
    ∃ a : GenerateArguments,
      (generateCmd env args).trace.filter Event.isRun = [Event.generateRun a] ∧
      ((generateFlags env).Parse env args).flagSet.valueOf "f" = some (.str a.FileName) ∧
      ((generateFlags env).Parse env args).flagSet.valueOf "path" = some (.str a.Path) ∧
      ((generateFlags env).Parse env args).flagSet.valueOf "watch" = some (.bool a.Watch) ∧
      ((generateFlags env).Parse env args).flagSet.valueOf "cmd" = some (.str a.Command) ∧
      ((generateFlags env).Parse env args).flagSet.valueOf "proxy" = some (.str a.Proxy) ∧
      ((generateFlags env).Parse env args).flagSet.valueOf "proxyport" = some (.int a.ProxyPort) ∧
      ((generateFlags env).Parse env args).flagSet.valueOf "w" = some (.int a.WorkerCount) ∧
      ((generateFlags env).Parse env args).flagSet.valueOf "sourceMapVisualisations" =
        some (.bool a.GenerateSourceMapVisualisations) ∧
      ((generateFlags env).Parse env args).flagSet.valueOf "include-version" =
        some (.bool a.IncludeVersion) ∧
      ((generateFlags env).Parse env args).flagSet.valueOf "include-timestamp" =
        some (.bool a.IncludeTimestamp) ∧
      ((generateFlags env).Parse env args).flagSet.valueOf "pprof" = some (.int a.PPROFPort) := by
  have hspec := (generateFlags env).Parse_spec env args
  have hsame := hspec.1
  refine ⟨generateArguments ((generateFlags env).Parse env args).flagSet, ?_,
    FlagSet.valueOf_str hsame _ rfl, FlagSet.valueOf_str hsame _ rfl,
    FlagSet.valueOf_bool hsame _ rfl, FlagSet.valueOf_str hsame _ rfl,
    FlagSet.valueOf_str hsame _ rfl, FlagSet.valueOf_int hsame _ rfl,
    FlagSet.valueOf_int hsame _ rfl, FlagSet.valueOf_bool hsame _ rfl,
    FlagSet.valueOf_bool hsame _ rfl, FlagSet.valueOf_bool hsame _ rfl,
    FlagSet.valueOf_int hsame _ rfl⟩
  unfold generateCmd
  dsimp only
  rw [handler_parsed _ _ _ _ _ hparse (hspec.2.2.1 hparse), hhelp]
  cases env.generateRun (generateArguments ((generateFlags env).Parse env args).flagSet) <;> rfl

theorem FlagSet.parseLoop_seen (env : Env) (fuel : Nat) (f g : FlagSet) (tr : List Event)
    (h : f.parseOne env = ⟨g, [], true, none⟩) :
    FlagSet.parseLoop env (fuel + 1) f tr = FlagSet.parseLoop env fuel g tr := by
  simp [FlagSet.parseLoop, h]

theorem FlagSet.parseLoop_done (env : Env) (fuel : Nat) (f g : FlagSet) (tr : List Event)
    (h : f.parseOne env = ⟨g, [], false, none⟩) :
    FlagSet.parseLoop env (fuel + 1) f tr = some ⟨g, tr, .returned none⟩ := by
  simp [FlagSet.parseLoop, h]

theorem FlagSet.assign_next_int (env : Env) (f : FlagSet) (name next : String)
    (rest : List String) (fl : Flag) (k n : Int) (hl : f.lookup name = some fl)
    (hv : fl.value = .int k) (hargs : f.args = next :: rest) (hp : env.ParseInt next = some n) :
    f.assign env name false "" =
      ⟨FlagSet.store { f with args := rest } name (.int n), [], true, none⟩ := by
  unfold FlagSet.assign
  rw [hl]
  simp [hv, hargs, FlagValue.set, hp]

theorem FlagSet.assign_attached_int (env : Env) (f : FlagSet) (name value : String)
    (fl : Flag) (k n : Int) (hl : f.lookup name = some fl)
    (hv : fl.value = .int k) (hp : env.ParseInt value = some n) :
    f.assign env name true value = ⟨f.store name (.int n), [], true, none⟩ := by
  unfold FlagSet.assign
  rw [hl]
  simp [hv, FlagValue.set, hp]

theorem parseOne_w_next (env : Env) (f : FlagSet) (s : String) (rest : List String) :
    FlagSet.parseOne env { f with args := "-w" :: s :: rest } =
      FlagSet.assign env { f with args := s :: rest } "w" false "" := rfl

theorem parseOne_w_attached (env : Env) (f : FlagSet) (s : String) (rest : List String) :
    FlagSet.parseOne env { f with args := ("-w=" ++ s) :: rest } =
      FlagSet.assign env { f with args := rest } "w" true s := by
  have h : ("-w=" ++ s).toList = '-' :: 'w' :: '=' :: s.toList := by
    show ("-w=" ++ s).data = _
    rw [String.data_append]
    rfl
  unfold FlagSet.parseOne
  simp [h, cutValue, List.span, List.span.loop]

theorem generateCmd_calls (env : Env) (args : List String) (g : FlagSet)
    (hp : (generateFlags env).Parse env args = ⟨g, [], .returned none⟩)
    (hhelp : g.getBool "help" = false) :
    (generateCmd env args).trace.filter Event.isRun = [Event.generateRun (generateArguments g)] := by
  unfold generateCmd
  dsimp only
  rw [handler_parsed _ _ _ _ _ (by rw [hp]) (by rw [hp]), hp]
  dsimp only
  rw [hhelp]
  cases env.generateRun (generateArguments g) <;> rfl

/-- C5: called with no arguments, generateCmd calls generatecmd.Run with
WorkerCount equal to runtime.NumCPU() and every other field at the default
registered for it; called with -w and a number, as two arguments or joined by
an equals sign, it calls Run with WorkerCount equal to that number. -/
theorem generateCmd_worker_count (env : Env) (s : String) (n : Int)
    (hs : env.ParseInt s = some n) :
    (generateCmd env []).trace.filter Event.isRun =
      [Event.generateRun (defaultArguments env.NumCPU)] ∧
    (generateCmd env ["-w", s]).trace.filter Event.isRun =
      [Event.generateRun (defaultArguments n)] ∧
    (generateCmd env ["-w=" ++ s]).trace.filter Event.isRun =
      [Event.generateRun (defaultArguments n)] := by
  refine ⟨generateCmd_calls env [] { generateFlags env with args := [] } rfl rfl, ?_, ?_⟩
  · have step :=
      (parseOne_w_next env (generateFlags env) s []).trans
        (FlagSet.assign_next_int env { generateFlags env with args := [s] } "w" s [] _ env.NumCPU n
          rfl rfl rfl hs)
    have hloop : FlagSet.parseLoop env (["-w", s].length + 1)
        { generateFlags env with args := ["-w", s] } [] =
        some ⟨FlagSet.store { generateFlags env with args := [] } "w" (.int n), [],
          .returned none⟩ :=
      (FlagSet.parseLoop_seen env 2 _ _ [] step).trans (FlagSet.parseLoop_done env 1 _ _ [] rfl)
    have hp : (generateFlags env).Parse env ["-w", s] =
        ⟨FlagSet.store { generateFlags env with args := [] } "w" (.int n), [], .returned none⟩ := by
      unfold FlagSet.Parse
      rw [hloop]
      rfl
    exact generateCmd_calls env _ _ hp rfl
  · have step :=
      (parseOne_w_attached env (generateFlags env) s []).trans
        (FlagSet.assign_attached_int env { generateFlags env with args := [] } "w" s _ env.NumCPU n
          rfl rfl hs)
    have hloop : FlagSet.parseLoop env (["-w=" ++ s].length + 1)
        { generateFlags env with args := ["-w=" ++ s] } [] =
        some ⟨FlagSet.store { generateFlags env with args := [] } "w" (.int n), [],
          .returned none⟩ :=
      (FlagSet.parseLoop_seen env 1 _ _ [] step).trans (FlagSet.parseLoop_done env 0 _ _ [] rfl)
    have hp : (generateFlags env).Parse env ["-w=" ++ s] =
        ⟨FlagSet.store { generateFlags env with args := [] } "w" (.int n), [], .returned none⟩ := by
      unfold FlagSet.Parse
      rw [hloop]
      rfl
    exact generateCmd_calls env _ _ hp rfl

theorem generateCmd_worker_count_witness :
    sampleEnv.ParseInt "4" = some 4 ∧
    (generateCmd sampleEnv []).trace.filter Event.isRun = [Event.generateRun (defaultArguments 8)] ∧
    (generateCmd sampleEnv ["-w", "4"]).trace.filter Event.isRun =
      [Event.generateRun (defaultArguments 4)] ∧
    (generateCmd sampleEnv ["-w=" ++ "4"]).trace.filter Event.isRun =
      [Event.generateRun (defaultArguments 4)] :=
  ⟨by decide, generateCmd_worker_count sampleEnv "4" 4 (by decide)⟩

theorem generateCmd_passes_flags_witness :
    ((generateFlags sampleEnv).Parse sampleEnv
      ["-f", "a.templ", "-path", "src", "-watch", "-cmd", "go run .", "-proxy",
        "http://localhost:8080", "-proxyport", "9000", "-w", "3", "-sourceMapVisualisations",
        "-include-version=false", "-include-timestamp", "-pprof", "6060"]).ending = .returned none ∧
    (generateCmd sampleEnv
      ["-f", "a.templ", "-path", "src", "-watch", "-cmd", "go run .", "-proxy",
        "http://localhost:8080", "-proxyport", "9000", "-w", "3", "-sourceMapVisualisations",
        "-include-version=false", "-include-timestamp", "-pprof", "6060"]).trace.filter Event.isRun =
      [Event.generateRun
        { FileName := "a.templ", Path := "src", Watch := true, Command := "go run .",
          Proxy := "http://localhost:8080", ProxyPort := 9000, WorkerCount := 3,
          GenerateSourceMapVisualisations := true, IncludeVersion := false,
          IncludeTimestamp := true, PPROFPort := 6060 }] ∧
    ∃ a : GenerateArguments,
      (generateCmd sampleEnv
        ["-f", "a.templ", "-path", "src", "-watch", "-cmd", "go run .", "-proxy",
          "http://localhost:8080", "-proxyport", "9000", "-w", "3", "-sourceMapVisualisations",
          "-include-version=false", "-include-timestamp", "-pprof", "6060"]).trace.filter
          Event.isRun = [Event.generateRun a] :=
  ⟨by decide, by decide,
    (generateCmd_passes_flags sampleEnv
      ["-f", "a.templ", "-path", "src", "-watch", "-cmd", "go run .", "-proxy",
        "http://localhost:8080", "-proxyport", "9000", "-w", "3", "-sourceMapVisualisations",
        "-include-version=false", "-include-timestamp", "-pprof", "6060"]
      (by decide) (by decide)).imp (fun _ h => h.1)⟩

end Templ
